import Mathlib

/-!
# Verification of the enterprise-access redemption decision engine

A shallow embedding of the learner-credit redemption decision engine of the
`enterprise-access` repository: the idempotency-key builder, the per-content
redeemability evaluator, the redemption executor's key-choice rule, and the
policy CRUD validation/soft-delete rules, together with theorems settling the
specification claims about them.

The decision-engine implementation modules
(`enterprise_access/apps/subsidy_access_policy/{models,utils}.py` and
`enterprise_access/apps/api/v1/views/subsidy_access_policy.py`) are not part
of the evaluated sources; only their test suite
(`enterprise_access/apps/api/v1/tests/test_subsidy_access_policy_views.py`)
is.  Each definition below is therefore modelled from the specification,
with the concrete input/output pairs pinned by that test suite taken as
authoritative wherever the two disagree.
-/

namespace EnterpriseAccess

/-! ## Transactions (owned by the ledger, referenced by the core) -/

/-- Transaction states, per the spec's data model:
`state ∈ {created, pending, committed, failed}`. -/
inductive TransactionState where
  | created
  | pending
  | committed
  | failed
deriving DecidableEq, Repr

/-- A ledger transaction as consumed by the core: uuid, state, and the state
of its reversal when one exists (`none` models a null reversal). -/
structure TransactionRecord where
  uuid : Nat
  state : TransactionState
  reversal : Option TransactionState
deriving DecidableEq, Repr

/-- A transaction counts as a successful redemption when it is committed and
does not carry a committed reversal. -/
def isSuccessfulTxn (t : TransactionRecord) : Bool :=
  decide (t.state = TransactionState.committed) &&
    !decide (t.reversal = some TransactionState.committed)

/-! ## Idempotency Key Builder -/

/-- Boolean ordering on `Nat`, used to canonicalize historical uuid lists. -/
def natLeB (a b : Nat) : Bool :=
  decide (a ≤ b)

theorem natLeB_trans : ∀ (a b c : Nat), natLeB a b → natLeB b c → natLeB a c := by
  intro a b c h1 h2
  simp only [natLeB, decide_eq_true_eq] at *
  omega

theorem natLeB_total : ∀ (a b : Nat), natLeB a b || natLeB b a := by
  intro a b
  simp only [natLeB]
  by_cases h : a ≤ b
  · simp [h]
  · simp [h]
    omega

instance : IsAntisymm Nat (fun a b => natLeB a b = true) :=
  ⟨by
    intro a b h1 h2
    simp only [natLeB, decide_eq_true_eq] at h1 h2
    omega⟩

/-- Sorting with `natLeB` is invariant under permutation of the input list:
two permutations of the same multiset of uuids canonicalize identically. -/
theorem mergeSort_natLeB_congr {l₁ l₂ : List Nat} (h : l₁.Perm l₂) :
    l₁.mergeSort natLeB = l₂.mergeSort natLeB := by
  apply List.eq_of_perm_of_sorted
    (r := fun a b => natLeB a b = true)
  · exact (List.mergeSort_perm l₁ natLeB).trans
      (h.trans (List.mergeSort_perm l₂ natLeB).symm)
  · exact List.sorted_mergeSort natLeB_trans natLeB_total l₁
  · exact List.sorted_mergeSort natLeB_trans natLeB_total l₂

/-- The baseline idempotency key: a deterministic encoding of the
`(subsidy_uuid, lms_user_id, content_key, policy_uuid)` tuple with no
version suffix. -/
def base_idempotency_key (subsidy_uuid lms_user_id : Nat) (content_key : String)
    (subsidy_access_policy_uuid : Nat) : String :=
  "ledger-for-subsidy-" ++ toString subsidy_uuid ++ "-" ++ toString lms_user_id ++
    "-" ++ content_key ++ "-" ++ toString subsidy_access_policy_uuid

/-- Modelled from the spec: §4.1 Idempotency Key Builder
(`enterprise_access.apps.subsidy_access_policy.utils.create_idempotency_key_for_transaction`,
imported but not included in the evaluated sources).  With an empty history
the baseline key is returned; a non-empty history of prior transaction uuids
is canonicalized by sorting and incorporated as a version suffix, so that the
versioned key differs from the baseline and is order-independent. -/
def create_idempotency_key_for_transaction (subsidy_uuid lms_user_id : Nat)
    (content_key : String) (subsidy_access_policy_uuid : Nat)
    (historical_redemptions_uuids : List Nat) : String :=
  match historical_redemptions_uuids.mergeSort natLeB with
  | [] => base_idempotency_key subsidy_uuid lms_user_id content_key subsidy_access_policy_uuid
  | u :: rest =>
      base_idempotency_key subsidy_uuid lms_user_id content_key subsidy_access_policy_uuid ++
        "-v-" ++ String.intercalate "," ((u :: rest).map toString)

/-- A versioned key (non-empty history) always differs from the baseline key
for the same tuple: the version suffix strictly lengthens the string. -/
theorem versioned_key_ne_base (subsidy_uuid lms_user_id : Nat) (content_key : String)
    (subsidy_access_policy_uuid : Nat) (hist : List Nat) (hne : hist ≠ []) :
    create_idempotency_key_for_transaction subsidy_uuid lms_user_id content_key
        subsidy_access_policy_uuid hist ≠
      base_idempotency_key subsidy_uuid lms_user_id content_key subsidy_access_policy_uuid := by
  have hlen : (hist.mergeSort natLeB).length = hist.length :=
    (List.mergeSort_perm hist natLeB).length_eq
  cases hm : hist.mergeSort natLeB with
  | nil =>
      exfalso
      rw [hm] at hlen
      exact hne (List.length_eq_zero.mp hlen.symm)
  | cons u rest =>
      unfold create_idempotency_key_for_transaction
      rw [hm]
      intro hcontra
      have hlens := congrArg String.length hcontra
      rw [String.length_append, String.length_append] at hlens
      have h3 : ("-v-" : String).length = 3 := by decide
      omega

/-! ## Redemption Executor key choice -/

/-- Modelled from the spec: §4.1/§4.3 — the Redemption Executor inspects the
full list of existing transactions for the `(subsidy, learner, content,
policy)` tuple as returned by the ledger (ordered oldest first, so the most
recent transaction is the last element).  If none exist, or the most recent
one is still live (created, pending, or committed without a committed
reversal), the baseline key is used; if the most recent one is
committed-but-reversed or failed, the versioned key over all historical
transaction uuids is used.  `latestRequiresVersioned` decides the latter
condition on the (optional) most recent transaction. -/
def latestRequiresVersioned : Option TransactionRecord → Bool
  | none => false
  | some t =>
      decide (t.state = TransactionState.failed) ||
        (decide (t.state = TransactionState.committed) &&
          decide (t.reversal = some TransactionState.committed))

def redeem_idempotency_key (subsidy_uuid lms_user_id : Nat) (content_key : String)
    (subsidy_access_policy_uuid : Nat) (all_transactions : List TransactionRecord) : String :=
  if latestRequiresVersioned all_transactions.getLast? then
    create_idempotency_key_for_transaction subsidy_uuid lms_user_id content_key
      subsidy_access_policy_uuid (all_transactions.map (fun t => t.uuid))
  else
    create_idempotency_key_for_transaction subsidy_uuid lms_user_id content_key
      subsidy_access_policy_uuid []

/-! ## Redeemability Evaluator -/

/-- Content-assignment states, per the spec's data model. -/
inductive AssignmentState where
  | allocated
  | accepted
  | cancelled
  | errored
  | expired
deriving DecidableEq, Repr

/-- Policy-type discriminator for the concrete policy variants. -/
inductive PolicyType where
  | perLearnerEnrollmentCredit
  | perLearnerSpendCredit
  | assignedLearnerCredit
deriving DecidableEq, Repr

/-- Reason codes emitted by the evaluator when a policy cannot redeem. -/
inductive ReasonCode where
  | contentNotInCatalog
  | subsidyExpired
  | learnerNotInEnterpriseGroup
  | notEnoughValueInSubsidy
  | learnerMaxEnrollmentReached
  | learnerMaxSpendReached
  | learnerNotAssignedContent
  | learnerAssignmentCancelled
  | learnerAssignmentFailed
  | beyondEnrollmentDeadline
deriving DecidableEq, Repr

/-- Modelled from the spec: the fixed enumerated user-message set
(`MissingSubsidyAccessReasonUserMessages`, not in the evaluated sources).
By design the errored-assignment message is identical to the not-assigned
message, to avoid leaking internal-error detail. -/
def userMessage : ReasonCode → String
  | ReasonCode.contentNotInCatalog => "You cannot redeem this course because it is not in your organization's catalog."
  | ReasonCode.subsidyExpired => "You cannot redeem this course because your organization's subsidy is expired."
  | ReasonCode.learnerNotInEnterpriseGroup => "You cannot redeem this course because you are not in a group associated with the budget."
  | ReasonCode.notEnoughValueInSubsidy => "You cannot redeem this course because your organization does not have enough funds."
  | ReasonCode.learnerMaxEnrollmentReached => "You cannot redeem this course because you have reached your enrollment limit."
  | ReasonCode.learnerMaxSpendReached => "You cannot redeem this course because you have reached your spend limit."
  | ReasonCode.learnerNotAssignedContent => "You cannot redeem this course because your administrator has not assigned it to you."
  | ReasonCode.learnerAssignmentCancelled => "You cannot redeem this course because your administrator cancelled your assignment."
  | ReasonCode.learnerAssignmentFailed => "You cannot redeem this course because your administrator has not assigned it to you."
  | ReasonCode.beyondEnrollmentDeadline => "You cannot redeem this course because the enrollment deadline has passed."

/-- An evaluator reason: code, user-facing message, and the policies the
reason applies to. -/
structure Reason where
  reason_code : ReasonCode
  user_message : String
  policy_uuids : List Nat
deriving DecidableEq, Repr

/-- Build a reason for a code, drawing the user message from the fixed set. -/
def mkReason (c : ReasonCode) (uuids : List Nat) : Reason :=
  { reason_code := c, user_message := userMessage c, policy_uuids := uuids }

/-- Merge one reason into an accumulated list: reasons are deduplicated by
`reason_code`, merging each duplicate by unioning its `policy_uuids`. -/
def insertReason (acc : List Reason) (r : Reason) : List Reason :=
  if acc.any (fun a => decide (a.reason_code = r.reason_code)) then
    acc.map (fun a =>
      if a.reason_code = r.reason_code then
        { a with policy_uuids := a.policy_uuids ++ r.policy_uuids }
      else a)
  else
    acc ++ [r]

/-- Deduplicate a reason list by code, merging `policy_uuids`. -/
def dedupReasons (rs : List Reason) : List Reason :=
  rs.foldl insertReason []

/-- Normalized content metadata from the catalog collaborator; the price is
`none` when the upstream record is malformed (price field present but null
for content known to exist). -/
structure ContentMetadata where
  content_price : Option Nat
deriving DecidableEq, Repr

/-- A candidate policy as seen by the evaluator for one `(learner,
content_key)` pair, bundling the policy record with the outcome of each
external check the evaluator consumes for it: catalog containment, subsidy
time-window activity, learner group membership, the ledger's balance check,
the per-learner cap headroom, the learner's assignment for this content
(assigned-credit variant), and the enrollment deadline (with any
late-redemption allowance already folded in). -/
structure EvalPolicy where
  uuid : Nat
  policy_type : PolicyType
  active : Bool
  retired : Bool
  catalog_contains_content : Bool
  subsidy_is_active : Bool
  group_ok : Bool
  subsidy_can_redeem : Bool
  per_learner_cap_ok : Bool
  assignment : Option AssignmentState
  within_enrollment_deadline : Bool
deriving DecidableEq, Repr

/-- Modelled from the spec: §4.2 step 4 — classify one candidate policy,
returning `none` when every check passes (the policy is redeemable) or the
first failing check's reason code otherwise.  Checks run in the spec's
order: subsidy time window, group membership, ledger balance, per-learner
cap (cap variants only), assignment gating (assigned variant only), and the
enrollment deadline. -/
def policyReason (p : EvalPolicy) : Option ReasonCode :=
  if p.catalog_contains_content = false then some ReasonCode.contentNotInCatalog
  else if p.subsidy_is_active = false then some ReasonCode.subsidyExpired
  else if p.group_ok = false then some ReasonCode.learnerNotInEnterpriseGroup
  else if p.subsidy_can_redeem = false then some ReasonCode.notEnoughValueInSubsidy
  else if p.policy_type = PolicyType.perLearnerEnrollmentCredit ∧ p.per_learner_cap_ok = false then
    some ReasonCode.learnerMaxEnrollmentReached
  else if p.policy_type = PolicyType.perLearnerSpendCredit ∧ p.per_learner_cap_ok = false then
    some ReasonCode.learnerMaxSpendReached
  else if p.policy_type = PolicyType.assignedLearnerCredit then
    match p.assignment with
    | some AssignmentState.allocated =>
        if p.within_enrollment_deadline = false then some ReasonCode.beyondEnrollmentDeadline
        else none
    | some AssignmentState.cancelled => some ReasonCode.learnerAssignmentCancelled
    | some AssignmentState.errored => some ReasonCode.learnerAssignmentFailed
    | _ => some ReasonCode.learnerNotAssignedContent
  else if p.within_enrollment_deadline = false then some ReasonCode.beyondEnrollmentDeadline
  else none

/-- The per-content-key evaluation result structure of §4.2. -/
structure CanRedeemResult where
  content_key : String
  list_price : Option Nat
  redemptions : List TransactionRecord
  has_successful_redemption : Bool
  redeemable_policy : Option EvalPolicy
  can_redeem : Bool
  reasons : List Reason
  display_reason : Option Reason
deriving DecidableEq, Repr

/-- The inputs one content-key evaluation consumes: the content key, the
catalog lookup outcome (`none` models a not-found failure), the learner's
existing transactions for this content, and the enterprise customer's
policies together with their per-policy check outcomes. -/
structure EvalContext where
  content_key : String
  catalog_metadata : Option ContentMetadata
  transactions : List TransactionRecord
  policies : List EvalPolicy
deriving DecidableEq, Repr

/-- The candidate policies of an evaluation: active and non-retired. -/
def candidatePolicies (ctx : EvalContext) : List EvalPolicy :=
  ctx.policies.filter (fun p => p.active && !p.retired)

/-- Modelled from the spec: §4.2 Redeemability Evaluator for one content key
(the view/model implementation is not in the evaluated sources).  A catalog
not-found degrades to a `CONTENT_NOT_IN_CATALOG` reason in a success-shaped
result; a present-but-null price aborts with an unprocessable (422) signal;
an unreversed committed transaction short-circuits with no reasons;
otherwise the first candidate policy passing every check wins, and when none
wins the per-policy reasons are deduplicated by code. -/
def evaluateContentKey (ctx : EvalContext) : Except String CanRedeemResult :=
  match ctx.catalog_metadata with
  | none =>
      Except.ok
        { content_key := ctx.content_key
          list_price := none
          redemptions := ctx.transactions
          has_successful_redemption := ctx.transactions.any isSuccessfulTxn
          redeemable_policy := none
          can_redeem := false
          reasons := [mkReason ReasonCode.contentNotInCatalog
            ((candidatePolicies ctx).map (fun p => p.uuid))]
          display_reason := some (mkReason ReasonCode.contentNotInCatalog
            ((candidatePolicies ctx).map (fun p => p.uuid))) }
  | some md =>
      match md.content_price with
      | none => Except.error ("Could not determine price for content_key: " ++ ctx.content_key)
      | some price =>
          if ctx.transactions.any isSuccessfulTxn then
            Except.ok
              { content_key := ctx.content_key
                list_price := some price
                redemptions := ctx.transactions
                has_successful_redemption := true
                redeemable_policy := none
                can_redeem := false
                reasons := []
                display_reason := none }
          else
            match (candidatePolicies ctx).find? (fun p => (policyReason p).isNone) with
            | some winner =>
                Except.ok
                  { content_key := ctx.content_key
                    list_price := some price
                    redemptions := ctx.transactions
                    has_successful_redemption := false
                    redeemable_policy := some winner
                    can_redeem := true
                    reasons := []
                    display_reason := none }
            | none =>
                let rs := dedupReasons ((candidatePolicies ctx).filterMap
                  (fun p => (policyReason p).map (fun c => mkReason c [p.uuid])))
                Except.ok
                  { content_key := ctx.content_key
                    list_price := some price
                    redemptions := ctx.transactions
                    has_successful_redemption := false
                    redeemable_policy := none
                    can_redeem := false
                    reasons := rs
                    display_reason := rs.head? }

/-- Modelled from the spec: the batch can-redeem evaluation over a list of
content keys; any per-key unprocessable signal fails the whole request,
while per-key success-shaped results are collected in order. -/
def evaluateBatch (ctxs : List EvalContext) : Except String (List CanRedeemResult) :=
  match ctxs with
  | [] => Except.ok []
  | c :: rest =>
      match evaluateContentKey c, evaluateBatch rest with
      | Except.ok r, Except.ok rs => Except.ok (r :: rs)
      | Except.error e, _ => Except.error e
      | _, Except.error e => Except.error e

/-! ## Policy CRUD validation and soft delete -/

/-- Access methods, per the spec's data model. -/
inductive AccessMethod where
  | direct
  | assigned
deriving DecidableEq, Repr

/-- A stored policy record as handled by the CRUD layer. -/
structure PolicyRecord where
  uuid : Nat
  policy_type : PolicyType
  enterprise_customer_uuid : Nat
  catalog_uuid : Nat
  subsidy_uuid : Nat
  access_method : AccessMethod
  active : Bool
  retired : Bool
  display_name : String
  description : String
  spend_limit : Option Nat
  per_learner_enrollment_limit : Option Nat
  per_learner_spend_limit : Option Nat
deriving DecidableEq, Repr

/-- A partial update (PATCH/PUT payload) for a policy record: each field is
`none` when the payload leaves it untouched. -/
structure PolicyPatch where
  active : Option Bool
  spend_limit : Option (Option Nat)
  per_learner_enrollment_limit : Option (Option Nat)
  per_learner_spend_limit : Option (Option Nat)
  subsidy_uuid : Option Nat
  display_name : Option String
  description : Option String
deriving DecidableEq, Repr

/-- Apply a patch to a policy record, field by field. -/
def applyPatch (p : PolicyRecord) (u : PolicyPatch) : PolicyRecord :=
  { p with
    active := u.active.getD p.active
    spend_limit := u.spend_limit.getD p.spend_limit
    per_learner_enrollment_limit := u.per_learner_enrollment_limit.getD p.per_learner_enrollment_limit
    per_learner_spend_limit := u.per_learner_spend_limit.getD p.per_learner_spend_limit
    subsidy_uuid := u.subsidy_uuid.getD p.subsidy_uuid
    display_name := u.display_name.getD p.display_name
    description := u.description.getD p.description }

/-- Modelled from the spec: the cross-variant field invariant of §3 — a
Per-Learner Enrollment Cap policy must not carry a populated per-learner
spend limit, and a Per-Learner Spend Cap policy must not carry a populated
per-learner enrollment limit.  The evaluated test suite
(`test_update_view_validates_fields_vs_policy_type`, which edits policies
created with `active=False`, and `test_create_view`) applies this check
regardless of the policy's `active` flag, so it is modelled
unconditionally. -/
def crossVariantError (p : PolicyRecord) : Option String :=
  match p.policy_type with
  | PolicyType.perLearnerEnrollmentCredit =>
      if p.per_learner_spend_limit.isSome then
        some "must not define a per-learner spend limit"
      else none
  | PolicyType.perLearnerSpendCredit =>
      if p.per_learner_enrollment_limit.isSome then
        some "must not define a per-learner enrollment limit"
      else none
  | PolicyType.assignedLearnerCredit => none

/-- The sum of `spend_limit` over the active policies sharing a subsidy. -/
def activeSpendLimitSum (policies : List PolicyRecord) (subsidy : Nat) : Nat :=
  ((policies.filter (fun q => q.active && decide (q.subsidy_uuid = subsidy))).map
    (fun q => q.spend_limit.getD 0)).sum

/-- Modelled from the spec: the policy-mutation-boundary validation of
§3/§7 — the cross-variant field check, then the invariant that the sum of
`spend_limit` across all active policies sharing one `subsidy_uuid` must not
exceed that subsidy's total deposits, the latter enforced only when the
saved policy is active (inactive policies are exempt). -/
def validatePolicySave (others : List PolicyRecord) (p : PolicyRecord)
    (total_deposits : Nat) : Option String :=
  match crossVariantError p with
  | some e => some e
  | none =>
      if p.active = true ∧
          total_deposits < activeSpendLimitSum others p.subsidy_uuid + p.spend_limit.getD 0 then
        some "Spend limit cannot exceed the total deposits of the related subsidy"
      else none

/-- Modelled from the spec: the create endpoint of the policy CRUD layer —
validate the new record against the existing store, then append it. -/
def createPolicy (store : List PolicyRecord) (p : PolicyRecord)
    (total_deposits : Nat) : Except String (List PolicyRecord) :=
  match validatePolicySave store p total_deposits with
  | some e => Except.error e
  | none => Except.ok (store ++ [p])

/-- Modelled from the spec: the update endpoint of the policy CRUD layer —
find the target record, apply the patch, validate the patched record against
the other records, and save on success. -/
def updatePolicy (store : List PolicyRecord) (target : Nat) (u : PolicyPatch)
    (total_deposits : Nat) : Except String (List PolicyRecord) :=
  match store.find? (fun q => decide (q.uuid = target)) with
  | none => Except.error "policy not found"
  | some p =>
      let patched := applyPatch p u
      match validatePolicySave (store.filter (fun q => decide (q.uuid ≠ target)))
          patched total_deposits with
      | some e => Except.error e
      | none =>
          Except.ok (store.map (fun q => if q.uuid = target then patched else q))

/-- Modelled from the spec: the destroy endpoint of the policy CRUD layer
(behavior pinned by `test_destroy_view`) — a soft delete that marks the
record inactive, keeps it in the store, and returns the updated record
serialized in a 200 response; `none` when no such policy exists. -/
def destroyPolicy (store : List PolicyRecord) (target : Nat) :
    Option (List PolicyRecord × PolicyRecord) :=
  match store.find? (fun q => decide (q.uuid = target)) with
  | none => none
  | some p =>
      let softDeleted := { p with active := false }
      some (store.map (fun q => if q.uuid = target then softDeleted else q), softDeleted)

/-! ## Theorems settling the claims -/

/-- An empty history yields exactly the baseline key. -/
theorem create_key_nil_eq_base (subsidy_uuid lms_user_id : Nat) (content_key : String)
    (subsidy_access_policy_uuid : Nat) :
    create_idempotency_key_for_transaction subsidy_uuid lms_user_id content_key
        subsidy_access_policy_uuid [] =
      base_idempotency_key subsidy_uuid lms_user_id content_key subsidy_access_policy_uuid := by
  unfold create_idempotency_key_for_transaction
  rw [List.mergeSort_nil]

/-- C4: for every input tuple and every pair of historical uuid lists, the
idempotency key builder is deterministic (two calls with equal inputs return
the same string) and invariant under permutation of the historical uuid
list. -/
theorem claim_C4_idempotency_key_order_invariant (subsidy_uuid lms_user_id : Nat)
    (content_key : String) (subsidy_access_policy_uuid : Nat) (h₁ h₂ : List Nat)
    (hperm : h₁.Perm h₂) :
    create_idempotency_key_for_transaction subsidy_uuid lms_user_id content_key
        subsidy_access_policy_uuid h₁ =
      create_idempotency_key_for_transaction subsidy_uuid lms_user_id content_key
        subsidy_access_policy_uuid h₁ ∧
    create_idempotency_key_for_transaction subsidy_uuid lms_user_id content_key
        subsidy_access_policy_uuid h₁ =
      create_idempotency_key_for_transaction subsidy_uuid lms_user_id content_key
        subsidy_access_policy_uuid h₂ := by
  refine ⟨rfl, ?_⟩
  unfold create_idempotency_key_for_transaction
  rw [mergeSort_natLeB_congr hperm]

/-- Witness for C4 at a concrete input: two orderings of the same historical
uuid set produce the same versioned key. -/
theorem claim_C4_witness :
    List.Perm [3, 1, 2] [2, 3, 1] ∧
    create_idempotency_key_for_transaction 10 20 "course-v1:edX+DemoX+1T2024" 30 [3, 1, 2] =
      create_idempotency_key_for_transaction 10 20 "course-v1:edX+DemoX+1T2024" 30 [2, 3, 1] :=
  ⟨by decide,
    (claim_C4_idempotency_key_order_invariant 10 20 "course-v1:edX+DemoX+1T2024" 30
      [3, 1, 2] [2, 3, 1] (by decide)).2⟩

/-- C1: for every redeem call, if the ledger reports no existing
transactions, or the most recent existing transaction is created, pending,
or committed without a committed reversal, the idempotency key passed to the
ledger's create-transaction call is the baseline key (the deterministic hash
of the tuple with empty history); if the most recent existing transaction is
committed with a committed reversal, or failed, the key passed differs from
the baseline key. -/
theorem claim_C1_redeem_key_baseline_or_versioned (subsidy_uuid lms_user_id : Nat)
    (content_key : String) (policy_uuid : Nat) (txns : List TransactionRecord) :
    (txns = [] →
      redeem_idempotency_key subsidy_uuid lms_user_id content_key policy_uuid txns =
        create_idempotency_key_for_transaction subsidy_uuid lms_user_id content_key
          policy_uuid []) ∧
    (∀ t, txns.getLast? = some t →
      (t.state = TransactionState.created ∨ t.state = TransactionState.pending ∨
        (t.state = TransactionState.committed ∧
          t.reversal ≠ some TransactionState.committed)) →
      redeem_idempotency_key subsidy_uuid lms_user_id content_key policy_uuid txns =
        create_idempotency_key_for_transaction subsidy_uuid lms_user_id content_key
          policy_uuid []) ∧
    (∀ t, txns.getLast? = some t →
      ((t.state = TransactionState.committed ∧
          t.reversal = some TransactionState.committed) ∨
        t.state = TransactionState.failed) →
      redeem_idempotency_key subsidy_uuid lms_user_id content_key policy_uuid txns ≠
        create_idempotency_key_for_transaction subsidy_uuid lms_user_id content_key
          policy_uuid []) := by
  refine ⟨?_, ?_, ?_⟩
  · intro h
    subst h
    rfl
  · intro t ht hlive
    have hlatest : latestRequiresVersioned txns.getLast? = false := by
      rw [ht]
      rcases hlive with h | h | ⟨h, h2⟩ <;> simp [latestRequiresVersioned, h]
      exact h2
    simp [redeem_idempotency_key, hlatest]
  · intro t ht hdead
    have hlatest : latestRequiresVersioned txns.getLast? = true := by
      rw [ht]
      rcases hdead with ⟨h, h2⟩ | h <;> simp [latestRequiresVersioned, h, *]
    have htne : txns ≠ [] := by
      intro h
      rw [h] at ht
      cases ht
    rw [redeem_idempotency_key, if_pos hlatest, create_key_nil_eq_base]
    exact versioned_key_ne_base subsidy_uuid lms_user_id content_key policy_uuid
      (txns.map (fun t => t.uuid)) (by simpa using htne)

/-- Witness for C1 at concrete inputs: with no transactions the baseline key
is sent, and after a committed-and-reversed transaction a different
(versioned) key is sent. -/
theorem claim_C1_witness :
    redeem_idempotency_key 11 22 "course-v1:edX+Privacy101+3T2020" 33 [] =
      create_idempotency_key_for_transaction 11 22 "course-v1:edX+Privacy101+3T2020" 33 [] ∧
    redeem_idempotency_key 11 22 "course-v1:edX+Privacy101+3T2020" 33
        [⟨5, TransactionState.committed, some TransactionState.committed⟩] ≠
      create_idempotency_key_for_transaction 11 22 "course-v1:edX+Privacy101+3T2020" 33 [] :=
  ⟨(claim_C1_redeem_key_baseline_or_versioned 11 22 "course-v1:edX+Privacy101+3T2020" 33 []).1
      rfl,
    (claim_C1_redeem_key_baseline_or_versioned 11 22 "course-v1:edX+Privacy101+3T2020" 33
        [⟨5, TransactionState.committed, some TransactionState.committed⟩]).2.2
      ⟨5, TransactionState.committed, some TransactionState.committed⟩ rfl
      (Or.inl ⟨rfl, rfl⟩)⟩

/-- C2: for every can-redeem evaluation of a content key for which the
learner has an existing committed transaction with no committed reversal,
the per-content result has `can_redeem = false`, a null redeemable policy,
empty reasons (null display reason), `has_successful_redemption = true`,
and the committed transaction is still surfaced in the redemptions list. -/
theorem claim_C2_existing_committed_redemption_short_circuit (ctx : EvalContext)
    (md : ContentMetadata) (price : Nat) (t : TransactionRecord)
    (hmd : ctx.catalog_metadata = some md) (hprice : md.content_price = some price)
    (ht : t ∈ ctx.transactions) (hstate : t.state = TransactionState.committed)
    (hrev : t.reversal ≠ some TransactionState.committed) :
    ∃ r, evaluateContentKey ctx = Except.ok r ∧
      r.can_redeem = false ∧
      r.redeemable_policy = none ∧
      r.reasons = [] ∧
      r.display_reason = none ∧
      r.has_successful_redemption = true ∧
      t ∈ r.redemptions := by
  have hsucc : ctx.transactions.any isSuccessfulTxn = true := by
    rw [List.any_eq_true]
    refine ⟨t, ht, ?_⟩
    simp [isSuccessfulTxn, hstate, hrev]
  have heval : evaluateContentKey ctx = Except.ok
      { content_key := ctx.content_key
        list_price := some price
        redemptions := ctx.transactions
        has_successful_redemption := true
        redeemable_policy := none
        can_redeem := false
        reasons := []
        display_reason := none } := by
    simp [evaluateContentKey, hmd, hprice, hsucc]
  exact ⟨_, heval, rfl, rfl, rfl, rfl, rfl, ht⟩

/-- Witness for C2 at a concrete input: one committed, unreversed
transaction short-circuits the evaluation. -/
theorem claim_C2_witness :
    ∃ r,
      evaluateContentKey
          { content_key := "course-v1:demox+1234+2T2023"
            catalog_metadata := some { content_price := some 19900 }
            transactions := [⟨41, TransactionState.committed, none⟩]
            policies := [] } = Except.ok r ∧
        r.can_redeem = false ∧
        r.redeemable_policy = none ∧
        r.reasons = [] ∧
        r.display_reason = none ∧
        r.has_successful_redemption = true ∧
        (⟨41, TransactionState.committed, none⟩ : TransactionRecord) ∈ r.redemptions :=
  claim_C2_existing_committed_redemption_short_circuit
    { content_key := "course-v1:demox+1234+2T2023"
      catalog_metadata := some { content_price := some 19900 }
      transactions := [⟨41, TransactionState.committed, none⟩]
      policies := [] }
    { content_price := some 19900 } 19900 ⟨41, TransactionState.committed, none⟩
    rfl rfl (List.mem_singleton.mpr rfl) rfl (by simp)

/-- C3: for every can-redeem evaluation where the learner's only existing
transaction for the content is committed but carries a committed reversal,
and some candidate policy passes every check (in particular the subsidy has
sufficient remaining balance), the result has `can_redeem = true` with a
non-null redeemable policy, `has_successful_redemption = false`, and the
reversed transaction still appears in the redemptions list. -/
theorem claim_C3_reversed_redemption_can_redeem_again (ctx : EvalContext)
    (md : ContentMetadata) (price : Nat) (t : TransactionRecord) (p : EvalPolicy)
    (hmd : ctx.catalog_metadata = some md) (hprice : md.content_price = some price)
    (htxns : ctx.transactions = [t])
    (hrev : t.reversal = some TransactionState.committed)
    (hpmem : p ∈ ctx.policies) (hactive : p.active = true) (hretired : p.retired = false)
    (hpass : policyReason p = none) :
    ∃ r, evaluateContentKey ctx = Except.ok r ∧
      r.can_redeem = true ∧
      r.redeemable_policy.isSome = true ∧
      r.has_successful_redemption = false ∧
      t ∈ r.redemptions := by
  have hsucc : ctx.transactions.any isSuccessfulTxn = false := by
    rw [htxns]
    simp [isSuccessfulTxn, hrev]
  have hmem : p ∈ candidatePolicies ctx := by
    unfold candidatePolicies
    rw [List.mem_filter]
    exact ⟨hpmem, by simp [hactive, hretired]⟩
  have hfind : ((candidatePolicies ctx).find? (fun q => (policyReason q).isNone)).isSome = true := by
    rw [List.find?_isSome]
    exact ⟨p, hmem, by simp [hpass]⟩
  obtain ⟨w, hw⟩ := Option.isSome_iff_exists.mp hfind
  have heval : evaluateContentKey ctx = Except.ok
      { content_key := ctx.content_key
        list_price := some price
        redemptions := ctx.transactions
        has_successful_redemption := false
        redeemable_policy := some w
        can_redeem := true
        reasons := []
        display_reason := none } := by
    simp [evaluateContentKey, hmd, hprice, hsucc, hw]
  refine ⟨_, heval, rfl, rfl, rfl, ?_⟩
  rw [htxns]
  exact List.mem_singleton.mpr rfl

/-- Witness for C3 at a concrete input: a committed-then-reversed
transaction does not block redemption when a policy passes all checks. -/
theorem claim_C3_witness :
    ∃ r,
      evaluateContentKey
          { content_key := "course-v1:demox+1234+2T2023"
            catalog_metadata := some { content_price := some 19900 }
            transactions :=
              [⟨41, TransactionState.committed, some TransactionState.committed⟩]
            policies :=
              [⟨77, PolicyType.perLearnerEnrollmentCredit, true, false,
                true, true, true, true, true, none, true⟩] } = Except.ok r ∧
        r.can_redeem = true ∧
        r.redeemable_policy.isSome = true ∧
        r.has_successful_redemption = false ∧
        (⟨41, TransactionState.committed, some TransactionState.committed⟩ :
          TransactionRecord) ∈ r.redemptions :=
  claim_C3_reversed_redemption_can_redeem_again
    { content_key := "course-v1:demox+1234+2T2023"
      catalog_metadata := some { content_price := some 19900 }
      transactions := [⟨41, TransactionState.committed, some TransactionState.committed⟩]
      policies :=
        [⟨77, PolicyType.perLearnerEnrollmentCredit, true, false,
          true, true, true, true, true, none, true⟩] }
    { content_price := some 19900 } 19900
    ⟨41, TransactionState.committed, some TransactionState.committed⟩
    ⟨77, PolicyType.perLearnerEnrollmentCredit, true, false,
      true, true, true, true, true, none, true⟩
    rfl rfl rfl rfl (List.mem_singleton.mpr rfl) rfl rfl (by rfl)

/-- A content-key evaluation whose catalog lookup did not fail with a
malformed (present-but-null) price always produces a success-shaped
result. -/
theorem evaluateContentKey_ok_of_wellformed (c : EvalContext)
    (h : c.catalog_metadata = none ∨
      ∃ m pr, c.catalog_metadata = some m ∧ m.content_price = some pr) :
    ∃ r, evaluateContentKey c = Except.ok r := by
  cases hev : evaluateContentKey c with
  | ok r => exact ⟨r, rfl⟩
  | error e =>
      exfalso
      rcases h with h | ⟨m, pr, hm, hpr⟩
      · simp [evaluateContentKey, h] at hev
      · by_cases hany : c.transactions.any isSuccessfulTxn = true
        · simp [evaluateContentKey, hm, hpr, hany] at hev
        · have hany' : c.transactions.any isSuccessfulTxn = false :=
            Bool.eq_false_iff.mpr hany
          cases hfind : (candidatePolicies c).find? (fun p => (policyReason p).isNone) with
          | none => simp [evaluateContentKey, hm, hpr, hany', hfind] at hev
          | some w => simp [evaluateContentKey, hm, hpr, hany', hfind] at hev

/-- A batch evaluation over content keys none of which has a malformed
price returns a success-shaped result, one entry per key. -/
theorem evaluateBatch_ok_of_wellformed (ctxs : List EvalContext)
    (h : ∀ c ∈ ctxs, c.catalog_metadata = none ∨
      ∃ m pr, c.catalog_metadata = some m ∧ m.content_price = some pr) :
    ∃ rs, evaluateBatch ctxs = Except.ok rs ∧ rs.length = ctxs.length := by
  induction ctxs with
  | nil => exact ⟨[], rfl, rfl⟩
  | cons c rest ih =>
      obtain ⟨r, hr⟩ := evaluateContentKey_ok_of_wellformed c (h c (List.mem_cons_self c rest))
      obtain ⟨rs, hrs, hlen⟩ := ih (fun x hx => h x (List.mem_cons_of_mem c hx))
      exact ⟨r :: rs, by simp [evaluateBatch, hr, hrs], by simp [hlen]⟩

/-- C5: a content key whose catalog lookup fails with not-found never fails
the whole batch: its own outcome is success-shaped with a null list price,
`can_redeem = false`, no redeemable policy and a `CONTENT_NOT_IN_CATALOG`
reason, and any batch made of not-found or well-priced keys succeeds with
one outcome per key. -/
theorem claim_C5_content_not_found_still_ok (ctx : EvalContext)
    (hmd : ctx.catalog_metadata = none) :
    (∃ r, evaluateContentKey ctx = Except.ok r ∧
      r.list_price = none ∧
      r.can_redeem = false ∧
      r.redeemable_policy = none ∧
      ∃ reason, reason ∈ r.reasons ∧ reason.reason_code = ReasonCode.contentNotInCatalog) ∧
    ∀ ctxs : List EvalContext,
      (∀ c ∈ ctxs, c.catalog_metadata = none ∨
        ∃ m pr, c.catalog_metadata = some m ∧ m.content_price = some pr) →
      ∃ rs, evaluateBatch ctxs = Except.ok rs ∧ rs.length = ctxs.length := by
  constructor
  · have heval : evaluateContentKey ctx = Except.ok
        { content_key := ctx.content_key
          list_price := none
          redemptions := ctx.transactions
          has_successful_redemption := ctx.transactions.any isSuccessfulTxn
          redeemable_policy := none
          can_redeem := false
          reasons := [mkReason ReasonCode.contentNotInCatalog
            ((candidatePolicies ctx).map (fun p => p.uuid))]
          display_reason := some (mkReason ReasonCode.contentNotInCatalog
            ((candidatePolicies ctx).map (fun p => p.uuid))) } := by
      simp [evaluateContentKey, hmd]
    exact ⟨_, heval, rfl, rfl, rfl,
      ⟨mkReason ReasonCode.contentNotInCatalog
          ((candidatePolicies ctx).map (fun p => p.uuid)),
        List.mem_singleton.mpr rfl, rfl⟩⟩
  · exact evaluateBatch_ok_of_wellformed

/-- Witness for C5 at a concrete input: a not-found content key yields a
success-shaped, non-redeemable outcome. -/
theorem claim_C5_witness :
    (∃ r,
      evaluateContentKey
          { content_key := "course-v1:Unredeemable+Content+3T2020"
            catalog_metadata := none
            transactions := []
            policies :=
              [⟨91, PolicyType.assignedLearnerCredit, true, false,
                false, true, true, true, true, none, true⟩] } = Except.ok r ∧
        r.list_price = none ∧
        r.can_redeem = false ∧
        r.redeemable_policy = none ∧
        ∃ reason, reason ∈ r.reasons ∧
          reason.reason_code = ReasonCode.contentNotInCatalog) ∧
    ∀ ctxs : List EvalContext,
      (∀ c ∈ ctxs, c.catalog_metadata = none ∨
        ∃ m pr, c.catalog_metadata = some m ∧ m.content_price = some pr) →
      ∃ rs, evaluateBatch ctxs = Except.ok rs ∧ rs.length = ctxs.length :=
  claim_C5_content_not_found_still_ok
    { content_key := "course-v1:Unredeemable+Content+3T2020"
      catalog_metadata := none
      transactions := []
      policies :=
        [⟨91, PolicyType.assignedLearnerCredit, true, false,
          false, true, true, true, true, none, true⟩] }
    rfl

/-- C6: for every can-redeem evaluation of a content key known to exist but
whose upstream price metadata has the price field present and null,
evaluation aborts with a 422-equivalent unprocessable signal rather than any
success-shaped result, so the missing price is never silently defaulted. -/
theorem claim_C6_malformed_price_unprocessable (ctx : EvalContext)
    (md : ContentMetadata) (hmd : ctx.catalog_metadata = some md)
    (hprice : md.content_price = none) :
    evaluateContentKey ctx =
      Except.error ("Could not determine price for content_key: " ++ ctx.content_key) ∧
    ∀ r, evaluateContentKey ctx ≠ Except.ok r := by
  have h : evaluateContentKey ctx =
      Except.error ("Could not determine price for content_key: " ++ ctx.content_key) := by
    simp [evaluateContentKey, hmd, hprice]
  refine ⟨h, fun r hr => ?_⟩
  rw [h] at hr
  cases hr

/-- Witness for C6 at a concrete input: a present-but-null price yields the
unprocessable error. -/
theorem claim_C6_witness :
    evaluateContentKey
        { content_key := "course-v1:demox+1234+2T2023"
          catalog_metadata := some { content_price := none }
          transactions := []
          policies := [] } =
      Except.error
        ("Could not determine price for content_key: " ++ "course-v1:demox+1234+2T2023") ∧
    ∀ r,
      evaluateContentKey
          { content_key := "course-v1:demox+1234+2T2023"
            catalog_metadata := some { content_price := none }
            transactions := []
            policies := [] } ≠ Except.ok r :=
  claim_C6_malformed_price_unprocessable
    { content_key := "course-v1:demox+1234+2T2023"
      catalog_metadata := some { content_price := none }
      transactions := []
      policies := [] }
    { content_price := none } rfl rfl

/-- C7: for every can-redeem evaluation of an assigned-credit policy whose
other checks all pass, a learner with no assignment for the content gets
reason `LEARNER_NOT_ASSIGNED_CONTENT`; a cancelled assignment gets
`LEARNER_ASSIGNMENT_CANCELLED`; an errored assignment gets
`LEARNER_ASSIGNMENT_FAILED` with a user message identical to the
not-assigned one; and in all three cases `can_redeem = false`. -/
theorem claim_C7_assignment_gating_reasons (ctx : EvalContext) (md : ContentMetadata)
    (price : Nat) (p : EvalPolicy)
    (hmd : ctx.catalog_metadata = some md) (hprice : md.content_price = some price)
    (hnosucc : ctx.transactions.any isSuccessfulTxn = false)
    (hpol : ctx.policies = [p])
    (htype : p.policy_type = PolicyType.assignedLearnerCredit)
    (hactive : p.active = true) (hretired : p.retired = false)
    (hcat : p.catalog_contains_content = true)
    (hsub : p.subsidy_is_active = true) (hgrp : p.group_ok = true)
    (hbal : p.subsidy_can_redeem = true) :
    (p.assignment = none →
      ∃ r, evaluateContentKey ctx = Except.ok r ∧
        r.can_redeem = false ∧
        r.reasons = [mkReason ReasonCode.learnerNotAssignedContent [p.uuid]]) ∧
    (p.assignment = some AssignmentState.cancelled →
      ∃ r, evaluateContentKey ctx = Except.ok r ∧
        r.can_redeem = false ∧
        r.reasons = [mkReason ReasonCode.learnerAssignmentCancelled [p.uuid]]) ∧
    (p.assignment = some AssignmentState.errored →
      ∃ r, evaluateContentKey ctx = Except.ok r ∧
        r.can_redeem = false ∧
        r.reasons = [mkReason ReasonCode.learnerAssignmentFailed [p.uuid]] ∧
        userMessage ReasonCode.learnerAssignmentFailed =
          userMessage ReasonCode.learnerNotAssignedContent) := by
  have hcand : candidatePolicies ctx = [p] := by
    simp [candidatePolicies, hpol, hactive, hretired]
  have build : ∀ code : ReasonCode, policyReason p = some code →
      ∃ r, evaluateContentKey ctx = Except.ok r ∧
        r.can_redeem = false ∧
        r.reasons = [mkReason code [p.uuid]] := by
    intro code hcode
    have hfind : (candidatePolicies ctx).find? (fun q => (policyReason q).isNone) = none := by
      rw [hcand]
      simp [hcode]
    have heval : evaluateContentKey ctx = Except.ok
        { content_key := ctx.content_key
          list_price := some price
          redemptions := ctx.transactions
          has_successful_redemption := false
          redeemable_policy := none
          can_redeem := false
          reasons := [mkReason code [p.uuid]]
          display_reason := some (mkReason code [p.uuid]) } := by
      simp [evaluateContentKey, hmd, hprice, hnosucc, hfind, hcand, hcode,
        dedupReasons, insertReason]
    exact ⟨_, heval, rfl, rfl⟩
  refine ⟨?_, ?_, ?_⟩
  · intro hassign
    exact build ReasonCode.learnerNotAssignedContent
      (by simp [policyReason, hcat, hsub, hgrp, hbal, htype, hassign])
  · intro hassign
    exact build ReasonCode.learnerAssignmentCancelled
      (by simp [policyReason, hcat, hsub, hgrp, hbal, htype, hassign])
  · intro hassign
    obtain ⟨r, hr, hcr, hreasons⟩ := build ReasonCode.learnerAssignmentFailed
      (by simp [policyReason, hcat, hsub, hgrp, hbal, htype, hassign])
    exact ⟨r, hr, hcr, hreasons, rfl⟩

/-- Witness for C7 at a concrete input: a cancelled assignment yields the
cancelled reason, and an errored assignment yields the failed reason with
the not-assigned user message. -/
theorem claim_C7_witness :
    (∃ r,
      evaluateContentKey
          { content_key := "course-v1:edX+Cancelled+1T2023"
            catalog_metadata := some { content_price := some 29900 }
            transactions := []
            policies :=
              [⟨61, PolicyType.assignedLearnerCredit, true, false,
                true, true, true, true, true, some AssignmentState.cancelled, true⟩] } =
        Except.ok r ∧
      r.can_redeem = false ∧
      r.reasons = [mkReason ReasonCode.learnerAssignmentCancelled [61]]) ∧
    (∃ r,
      evaluateContentKey
          { content_key := "course-v1:edX+Errored+1T2023"
            catalog_metadata := some { content_price := some 29900 }
            transactions := []
            policies :=
              [⟨61, PolicyType.assignedLearnerCredit, true, false,
                true, true, true, true, true, some AssignmentState.errored, true⟩] } =
        Except.ok r ∧
      r.can_redeem = false ∧
      r.reasons = [mkReason ReasonCode.learnerAssignmentFailed [61]] ∧
      userMessage ReasonCode.learnerAssignmentFailed =
        userMessage ReasonCode.learnerNotAssignedContent) :=
  ⟨(claim_C7_assignment_gating_reasons
      { content_key := "course-v1:edX+Cancelled+1T2023"
        catalog_metadata := some { content_price := some 29900 }
        transactions := []
        policies :=
          [⟨61, PolicyType.assignedLearnerCredit, true, false,
            true, true, true, true, true, some AssignmentState.cancelled, true⟩] }
      { content_price := some 29900 } 29900
      ⟨61, PolicyType.assignedLearnerCredit, true, false,
        true, true, true, true, true, some AssignmentState.cancelled, true⟩
      rfl rfl rfl rfl rfl rfl rfl rfl rfl rfl rfl).2.1 rfl,
    (claim_C7_assignment_gating_reasons
      { content_key := "course-v1:edX+Errored+1T2023"
        catalog_metadata := some { content_price := some 29900 }
        transactions := []
        policies :=
          [⟨61, PolicyType.assignedLearnerCredit, true, false,
            true, true, true, true, true, some AssignmentState.errored, true⟩] }
      { content_price := some 29900 } 29900
      ⟨61, PolicyType.assignedLearnerCredit, true, false,
        true, true, true, true, true, some AssignmentState.errored, true⟩
      rfl rfl rfl rfl rfl rfl rfl rfl rfl rfl rfl).2.2 rfl⟩

/-- C8: for every policy update whose patched record is active and whose
spend limit raise makes the sum of spend limits over the active policies
sharing its subsidy (plus its own) exceed the subsidy's total deposits, the
update is rejected; the same kind of update on a policy being made inactive
is accepted, because the spend-limit-sum invariant is enforced only over
active policies. -/
theorem claim_C8_spend_limit_sum_only_active (store : List PolicyRecord) (target : Nat)
    (p : PolicyRecord) (u : PolicyPatch) (total_deposits : Nat)
    (hfind : store.find? (fun q => decide (q.uuid = target)) = some p)
    (hcross : crossVariantError (applyPatch p u) = none) :
    ((applyPatch p u).active = true →
      total_deposits <
          activeSpendLimitSum (store.filter (fun q => decide (q.uuid ≠ target)))
            (applyPatch p u).subsidy_uuid + (applyPatch p u).spend_limit.getD 0 →
      ∃ e, updatePolicy store target u total_deposits = Except.error e) ∧
    ((applyPatch p u).active = false →
      ∃ s, updatePolicy store target u total_deposits = Except.ok s) := by
  constructor
  · intro hact hexceed
    have hval : validatePolicySave (store.filter (fun q => decide (q.uuid ≠ target)))
        (applyPatch p u) total_deposits =
        some "Spend limit cannot exceed the total deposits of the related subsidy" := by
      simp only [validatePolicySave, hcross]
      rw [if_pos ⟨hact, hexceed⟩]
    exact ⟨"Spend limit cannot exceed the total deposits of the related subsidy",
      by simp only [updatePolicy, hfind, hval]⟩
  · intro hact
    have hval : validatePolicySave (store.filter (fun q => decide (q.uuid ≠ target)))
        (applyPatch p u) total_deposits = none := by
      simp only [validatePolicySave, hcross]
      rw [if_neg]
      rintro ⟨h1, _⟩
      rw [hact] at h1
      cases h1
    exact ⟨store.map (fun q => if q.uuid = target then applyPatch p u else q),
      by simp only [updatePolicy, hfind, hval]⟩

/-- Witness for C8 at a concrete input: raising `spend_limit` from 5 to 6
against total deposits of 4 is rejected while the policy stays active, and
accepted when the same patch also deactivates the policy. -/
theorem claim_C8_witness :
    (∃ e,
      updatePolicy
          [⟨1, PolicyType.perLearnerSpendCredit, 7, 8, 9, AccessMethod.direct, true, false,
            "old display_name", "A generic description", some 5, none, none⟩]
          1
          ⟨some true, some (some 6), none, none, none, some "new display_name", none⟩
          4 = Except.error e) ∧
    (∃ s,
      updatePolicy
          [⟨1, PolicyType.perLearnerSpendCredit, 7, 8, 9, AccessMethod.direct, true, false,
            "old display_name", "A generic description", some 5, none, none⟩]
          1
          ⟨some false, some (some 6), none, none, none, some "new display_name", none⟩
          4 = Except.ok s) :=
  ⟨(claim_C8_spend_limit_sum_only_active
      [⟨1, PolicyType.perLearnerSpendCredit, 7, 8, 9, AccessMethod.direct, true, false,
        "old display_name", "A generic description", some 5, none, none⟩]
      1
      ⟨1, PolicyType.perLearnerSpendCredit, 7, 8, 9, AccessMethod.direct, true, false,
        "old display_name", "A generic description", some 5, none, none⟩
      ⟨some true, some (some 6), none, none, none, some "new display_name", none⟩
      4 rfl rfl).1 rfl (by decide),
    (claim_C8_spend_limit_sum_only_active
      [⟨1, PolicyType.perLearnerSpendCredit, 7, 8, 9, AccessMethod.direct, true, false,
        "old display_name", "A generic description", some 5, none, none⟩]
      1
      ⟨1, PolicyType.perLearnerSpendCredit, 7, 8, 9, AccessMethod.direct, true, false,
        "old display_name", "A generic description", some 5, none, none⟩
      ⟨some false, some (some 6), none, none, none, some "new display_name", none⟩
      4 rfl rfl).2 rfl⟩

/-- C9 counterexample: the cross-variant field check is NOT applied only
while the policy is active — updating an inactive Per-Learner Spend Cap
policy with a populated per-learner enrollment limit is still rejected with
the validation error, exactly as in the evaluated test
`test_update_view_validates_fields_vs_policy_type` (which edits policies
created with `active=False`). -/
theorem claim_C9_counterexample_inactive_policy_checked :
    (⟨1, PolicyType.perLearnerSpendCredit, 7, 8, 9, AccessMethod.direct, false, false,
      "old display_name", "A generic description", some 5, none, none⟩ :
      PolicyRecord).active = false ∧
    updatePolicy
        [⟨1, PolicyType.perLearnerSpendCredit, 7, 8, 9, AccessMethod.direct, false, false,
          "old display_name", "A generic description", some 5, none, none⟩]
        1
        ⟨none, none, some (some 10), none, none, none, none⟩
        100 = Except.error "must not define a per-learner enrollment limit" :=
  ⟨rfl, rfl⟩

/-- C9 (amended): for every create or update of a Per-Learner Enrollment
Cap policy carrying a populated per-learner spend limit, and of a
Per-Learner Spend Cap policy carrying a populated per-learner enrollment
limit, the mutation is rejected with a validation error, regardless of
whether the policy is or stays active. -/
theorem claim_C9_amended_cross_variant_check_unconditional (store : List PolicyRecord)
    (target : Nat) (p : PolicyRecord) (u : PolicyPatch) (total_deposits : Nat)
    (hfind : store.find? (fun q => decide (q.uuid = target)) = some p) :
    ((applyPatch p u).policy_type = PolicyType.perLearnerEnrollmentCredit →
      (applyPatch p u).per_learner_spend_limit.isSome = true →
      updatePolicy store target u total_deposits =
        Except.error "must not define a per-learner spend limit") ∧
    ((applyPatch p u).policy_type = PolicyType.perLearnerSpendCredit →
      (applyPatch p u).per_learner_enrollment_limit.isSome = true →
      updatePolicy store target u total_deposits =
        Except.error "must not define a per-learner enrollment limit") ∧
    (∀ q : PolicyRecord,
      (q.policy_type = PolicyType.perLearnerEnrollmentCredit →
        q.per_learner_spend_limit.isSome = true →
        createPolicy store q total_deposits =
          Except.error "must not define a per-learner spend limit") ∧
      (q.policy_type = PolicyType.perLearnerSpendCredit →
        q.per_learner_enrollment_limit.isSome = true →
        createPolicy store q total_deposits =
          Except.error "must not define a per-learner enrollment limit")) := by
  refine ⟨?_, ?_, ?_⟩
  · intro htype hlimit
    have hcross : crossVariantError (applyPatch p u) =
        some "must not define a per-learner spend limit" := by
      simp [crossVariantError, htype, hlimit]
    have hval : validatePolicySave (store.filter (fun q => decide (q.uuid ≠ target)))
        (applyPatch p u) total_deposits =
        some "must not define a per-learner spend limit" := by
      simp [validatePolicySave, hcross]
    simp only [updatePolicy, hfind, hval]
  · intro htype hlimit
    have hcross : crossVariantError (applyPatch p u) =
        some "must not define a per-learner enrollment limit" := by
      simp [crossVariantError, htype, hlimit]
    have hval : validatePolicySave (store.filter (fun q => decide (q.uuid ≠ target)))
        (applyPatch p u) total_deposits =
        some "must not define a per-learner enrollment limit" := by
      simp [validatePolicySave, hcross]
    simp only [updatePolicy, hfind, hval]
  · intro q
    constructor
    · intro htype hlimit
      have hcross : crossVariantError q =
          some "must not define a per-learner spend limit" := by
        simp [crossVariantError, htype, hlimit]
      have hval : validatePolicySave store q total_deposits =
          some "must not define a per-learner spend limit" := by
        simp [validatePolicySave, hcross]
      simp only [createPolicy, hval]
    · intro htype hlimit
      have hcross : crossVariantError q =
          some "must not define a per-learner enrollment limit" := by
        simp [crossVariantError, htype, hlimit]
      have hval : validatePolicySave store q total_deposits =
          some "must not define a per-learner enrollment limit" := by
        simp [validatePolicySave, hcross]
      simp only [createPolicy, hval]

/-- Witness for the amended C9 at a concrete input: an inactive spend-cap
policy updated with an enrollment limit, and an active enrollment-cap
policy created with a spend limit, are both rejected. -/
theorem claim_C9_amended_witness :
    updatePolicy
        [⟨1, PolicyType.perLearnerSpendCredit, 7, 8, 9, AccessMethod.direct, false, false,
          "old display_name", "A generic description", some 5, none, none⟩]
        1
        ⟨none, none, some (some 10), none, none, none, none⟩
        100 = Except.error "must not define a per-learner enrollment limit" ∧
    createPolicy
        [⟨1, PolicyType.perLearnerSpendCredit, 7, 8, 9, AccessMethod.direct, false, false,
          "old display_name", "A generic description", some 5, none, none⟩]
        ⟨2, PolicyType.perLearnerEnrollmentCredit, 7, 8, 9, AccessMethod.direct, true, false,
          "created policy", "test description", none, some 10, some 30000⟩
        100 = Except.error "must not define a per-learner spend limit" :=
  ⟨(claim_C9_amended_cross_variant_check_unconditional
      [⟨1, PolicyType.perLearnerSpendCredit, 7, 8, 9, AccessMethod.direct, false, false,
        "old display_name", "A generic description", some 5, none, none⟩]
      1
      ⟨1, PolicyType.perLearnerSpendCredit, 7, 8, 9, AccessMethod.direct, false, false,
        "old display_name", "A generic description", some 5, none, none⟩
      ⟨none, none, some (some 10), none, none, none, none⟩
      100 rfl).2.1 rfl rfl,
    ((claim_C9_amended_cross_variant_check_unconditional
      [⟨1, PolicyType.perLearnerSpendCredit, 7, 8, 9, AccessMethod.direct, false, false,
        "old display_name", "A generic description", some 5, none, none⟩]
      1
      ⟨1, PolicyType.perLearnerSpendCredit, 7, 8, 9, AccessMethod.direct, false, false,
        "old display_name", "A generic description", some 5, none, none⟩
      ⟨none, none, some (some 10), none, none, none, none⟩
      100 rfl).2.2
      ⟨2, PolicyType.perLearnerEnrollmentCredit, 7, 8, 9, AccessMethod.direct, true, false,
        "created policy", "test description", none, some 10, some 30000⟩).1 rfl rfl⟩

/-- After replacing every record matching the target uuid with a record
that itself carries the target uuid, lookup by the target uuid finds that
record. -/
theorem find?_map_soft (store : List PolicyRecord) (target : Nat) (p2 : PolicyRecord)
    (hp2 : p2.uuid = target)
    (h : (store.find? (fun q => decide (q.uuid = target))).isSome = true) :
    (store.map (fun q => if q.uuid = target then p2 else q)).find?
        (fun q => decide (q.uuid = target)) = some p2 := by
  induction store with
  | nil => simp at h
  | cons a rest ih =>
      by_cases ha : a.uuid = target
      · rw [List.map_cons, if_pos ha, List.find?_cons_of_pos]
        simp [hp2]
      · rw [List.map_cons, if_neg ha, List.find?_cons_of_neg _ (by simp [ha])]
        rw [List.find?_cons_of_neg _ (by simp [ha])] at h
        exact ih h

/-- Replacing every record matching the target uuid with a fixed record
carrying the target uuid is idempotent on the store. -/
theorem map_soft_idem (store : List PolicyRecord) (target : Nat) (p2 : PolicyRecord)
    (hp2 : p2.uuid = target) :
    ((store.map (fun q => if q.uuid = target then p2 else q)).map
        (fun q => if q.uuid = target then p2 else q)) =
      store.map (fun q => if q.uuid = target then p2 else q) := by
  induction store with
  | nil => rfl
  | cons a rest ih =>
      rw [List.map_cons, List.map_cons, ih]
      congr 1
      by_cases ha : a.uuid = target
      · rw [if_pos ha, if_pos hp2]
      · rw [if_neg ha, if_neg ha]

/-- C10: deleting an existing policy through the destroy endpoint is a soft
delete and is idempotent — the call succeeds with the policy serialized as
`active = false` and every other field unchanged, the record continues to
exist in the store, and repeating the identical call succeeds with the
identical response body and store. -/
theorem claim_C10_destroy_soft_delete_idempotent (store : List PolicyRecord)
    (target : Nat) (p : PolicyRecord)
    (hfind : store.find? (fun q => decide (q.uuid = target)) = some p) :
    ∃ store2 p2,
      destroyPolicy store target = some (store2, p2) ∧
      p2 = { p with active := false } ∧
      p2.active = false ∧
      store2.find? (fun q => decide (q.uuid = target)) = some p2 ∧
      destroyPolicy store2 target = some (store2, p2) := by
  have hpu : p.uuid = target := by
    simpa using List.find?_some hfind
  have hp2u : ({ p with active := false } : PolicyRecord).uuid = target := hpu
  have hfirst : destroyPolicy store target =
      some (store.map (fun q => if q.uuid = target then { p with active := false } else q),
        { p with active := false }) := by
    simp only [destroyPolicy, hfind]
  have hfind2 :
      (store.map (fun q => if q.uuid = target then { p with active := false } else q)).find?
          (fun q => decide (q.uuid = target)) = some { p with active := false } :=
    find?_map_soft store target { p with active := false } hp2u (by rw [hfind]; rfl)
  refine ⟨_, _, hfirst, rfl, rfl, hfind2, ?_⟩
  have hsecond : destroyPolicy
      (store.map (fun q => if q.uuid = target then { p with active := false } else q))
      target =
      some ((store.map (fun q => if q.uuid = target then { p with active := false } else q)).map
          (fun q => if q.uuid = target then { p with active := false } else q),
        { p with active := false }) := by
    simp only [destroyPolicy, hfind2]
  rw [hsecond, map_soft_idem store target { p with active := false } hp2u]

/-- Witness for C10 at a concrete input: destroying an existing policy
soft-deletes it, keeps the record, and a repeated destroy returns the
identical result. -/
theorem claim_C10_witness :
    ∃ store2 p2,
      destroyPolicy
          [⟨1, PolicyType.perLearnerEnrollmentCredit, 7, 8, 9, AccessMethod.direct, true,
            false, "A redeemable policy", "A generic description", some 3, some 5, none⟩]
          1 = some (store2, p2) ∧
      p2 = { (⟨1, PolicyType.perLearnerEnrollmentCredit, 7, 8, 9, AccessMethod.direct, true,
        false, "A redeemable policy", "A generic description", some 3, some 5, none⟩ :
          PolicyRecord) with active := false } ∧
      p2.active = false ∧
      store2.find? (fun q => decide (q.uuid = 1)) = some p2 ∧
      destroyPolicy store2 1 = some (store2, p2) :=
  claim_C10_destroy_soft_delete_idempotent
    [⟨1, PolicyType.perLearnerEnrollmentCredit, 7, 8, 9, AccessMethod.direct, true,
      false, "A redeemable policy", "A generic description", some 3, some 5, none⟩]
    1
    ⟨1, PolicyType.perLearnerEnrollmentCredit, 7, 8, 9, AccessMethod.direct, true,
      false, "A redeemable policy", "A generic description", some 3, some 5, none⟩
    rfl

end EnterpriseAccess
